import Mathlib

/-!
Shallow embedding of the p2 recursive-descent parser
(src/p2-parser/src/p2-parser.c) and verification of its specification.

The token queue is modelled as a `List Token` threaded explicitly through
every rule.  Every C function that can call `Error_throw_printf` is modelled
in the `PResult` monad; the extra `unspec` outcome models C undefined
behaviour (dereferencing the result of `TokenQueue_peek` on an empty queue,
or control falling off the end of a non-void function).
-/

set_option maxHeartbeats 1000000

namespace P2

/-- Token kinds produced by the external scanner (TokenType in the C headers). -/
inductive TokenType where
  | ID | KEY | SYM | DECLIT | HEXLIT | STRLIT
deriving DecidableEq, Repr

/-- A lexical token: kind, literal text, and source line. -/
structure Token where
  type : TokenType
  text : String
  line : Nat
deriving DecidableEq, Repr

/-- Decaf types (DecafType in the C headers). -/
inductive DecafType where
  | INT | BOOL | VOID
deriving DecidableEq, Repr

/-- Binary operator tags (BinaryOpType in the C headers).  LTOP is the
distinct tag for strict less-than present in the enumeration; the parser
source never produces it. -/
inductive BinaryOpType where
  | OROP | ANDOP | EQOP | NEQOP | LTOP | LEOP | GEOP | GTOP
  | ADDOP | SUBOP | MULOP | DIVOP | MODOP
deriving DecidableEq, Repr

/-- Unary operator tags (UnaryOpType in the C headers). -/
inductive UnaryOpType where
  | NEGOP | NOTOP
deriving DecidableEq, Repr

/-- AST nodes (ASTNode in the C headers).  `nullNode` models the C NULL
pointer, which the source stores in node positions: the absent else-branch
of a conditional, the absent value of a bare `return;`, the always-NULL
index of a location, and the value `breakout_helper` returns when the next
token is none of `continue` / `break` / `return`. -/
inductive ASTNode where
  | program (vars : List ASTNode) (funcs : List ASTNode)
  | vardecl (name : String) (ty : DecafType) (isArray : Bool) (arrayLen : Nat) (line : Nat)
  | funcdecl (name : String) (returnType : DecafType) (params : List (String × DecafType))
      (body : ASTNode) (line : Nat)
  | block (vars : List ASTNode) (stmts : List ASTNode) (line : Nat)
  | conditional (cond : ASTNode) (ifBlock : ASTNode) (elseBlock : ASTNode) (line : Nat)
  | assignment (loc : ASTNode) (value : ASTNode) (line : Nat)
  | binaryOp (op : BinaryOpType) (lhs : ASTNode) (rhs : ASTNode) (line : Nat)
  | unaryOp (op : UnaryOpType) (operand : ASTNode) (line : Nat)
  | location (name : String) (index : ASTNode) (line : Nat)
  | litInt (value : Int) (line : Nat)
  | litBool (value : Bool) (line : Nat)
  | litString (value : String) (line : Nat)
  | breakNode (line : Nat)
  | continueNode (line : Nat)
  | returnNode (value : ASTNode) (line : Nat)
  | nullNode

/-- Parse failures, one constructor per distinct `Error_throw_printf` format
string in the source. -/
inductive Err where
  | unexpectedEOF
  | unexpectedEOFExpecting (text : String)
  | unexpectedEOFExpectingType
  | unexpectedEOFExpectingId
  | unexpectedToken (expected : String) (found : String) (line : Nat)
  | invalidType (found : String) (line : Nat)
  | invalidId (found : String) (line : Nat)
  | invalidReturn
  | invalidAssignment
  | invalidOperator
deriving DecidableEq, Repr

/-- Result of running a parser fragment: success, a thrown parse error, or
C undefined behaviour (NULL dereference or falling off a non-void function). -/
inductive PResult (α : Type) where
  | ok : α → PResult α
  | err : Err → PResult α
  | unspec : PResult α

def PResult.bind {α β : Type} : PResult α → (α → PResult β) → PResult β
  | .ok a, f => f a
  | .err e, _ => .err e
  | .unspec, _ => .unspec

instance : Monad PResult where
  pure := PResult.ok
  bind := PResult.bind

/-- Modelled from the spec: the maximum identifier length bound (the header
defining MAX_ID_LEN is not under src/; the spec only says identifiers are
bounded to a maximum identifier length).  `snprintf(buffer, MAX_ID_LEN, ...)`
keeps at most `MAX_ID_LEN - 1` characters. -/
def MAX_ID_LEN : Nat := 256

/-- Truncation performed by `snprintf(buffer, MAX_ID_LEN, "%s", text)` in
`parse_id`. -/
def snprintf_id (s : String) : String :=
  String.mk (s.data.take (MAX_ID_LEN - 1))

/-- Value of a decimal digit character. -/
def digitVal (c : Char) : Nat := c.toNat - 48

/-- Accumulating loop of `atoi`: consume leading decimal digits. -/
def atoiCore : List Char → Nat → Nat
  | [], acc => acc
  | c :: cs, acc => if c.isDigit then atoiCore cs (acc * 10 + digitVal c) else acc

/-- Model of C `atoi` on lexer token texts: optional sign, then leading
decimal digits (token texts carry no leading whitespace). -/
def atoi (s : String) : Int :=
  match s.data with
  | '-' :: cs => - (atoiCore cs 0 : Int)
  | '+' :: cs => (atoiCore cs 0 : Int)
  | cs => (atoiCore cs 0 : Int)

/-- Hexadecimal digit test used by the `strtol` base-16 model. -/
def isHexDigit (c : Char) : Bool :=
  c.isDigit || ('a' ≤ c && c ≤ 'f') || ('A' ≤ c && c ≤ 'F')

/-- Value of a hexadecimal digit character. -/
def hexVal (c : Char) : Nat :=
  if c.isDigit then c.toNat - 48
  else if 'a' ≤ c && c ≤ 'f' then c.toNat - 87
  else c.toNat - 55

/-- Accumulating loop of base-16 `strtol`: consume leading hex digits. -/
def hexCore : List Char → Nat → Nat
  | [], acc => acc
  | c :: cs, acc => if isHexDigit c then hexCore cs (acc * 16 + hexVal c) else acc

/-- Base-16 digits after an optional `0x` / `0X` prefix. -/
def strtol16Body (cs : List Char) : Nat :=
  match cs with
  | '0' :: 'x' :: rest => hexCore rest 0
  | '0' :: 'X' :: rest => hexCore rest 0
  | _ => hexCore cs 0

/-- Model of C `strtol(text, NULL, 16)` on lexer token texts: optional sign,
optional `0x` prefix, then hex digits. -/
def strtol16 (s : String) : Int :=
  match s.data with
  | '-' :: cs => - (strtol16Body cs : Int)
  | '+' :: cs => (strtol16Body cs : Int)
  | cs => (strtol16Body cs : Int)

/-!  Stream cursor protocol (helper functions of the source). -/

/-- Model of `get_next_token_line`: the line of the next token; throws
"Unexpected end of input" on an empty queue.  Peeks only. -/
def get_next_token_line (input : List Token) : PResult Nat :=
  match input with
  | [] => .err .unexpectedEOF
  | t :: _ => .ok t.line

/-- Model of `match_and_discard_next_token`.  Note the source removes the
token first and, on a mismatch, computes the diagnostic line with
`get_next_token_line` on the now-shortened queue: the reported line is the
line of the token after the one that failed, and an empty remainder turns
the failure into plain "Unexpected end of input". -/
def match_and_discard_next_token (input : List Token) (ty : TokenType) (text : String) :
    PResult (List Token) :=
  match input with
  | [] => .err (.unexpectedEOFExpecting text)
  | token :: rest =>
    if token.type = ty ∧ token.text = text then
      .ok rest
    else
      PResult.bind (get_next_token_line rest) (fun l =>
        .err (.unexpectedToken text token.text l))

/-- Model of `discard_next_token`. -/
def discard_next_token (input : List Token) : PResult (List Token) :=
  match input with
  | [] => .err .unexpectedEOF
  | _ :: rest => .ok rest

/-- Model of `check_next_token_type`: non-consuming lookahead on the kind. -/
def check_next_token_type (input : List Token) (ty : TokenType) : Bool :=
  match input with
  | [] => false
  | token :: _ => token.type = ty

/-- Model of `check_next_token`: non-consuming lookahead on kind and text. -/
def check_next_token (input : List Token) (ty : TokenType) (text : String) : Bool :=
  match input with
  | [] => false
  | token :: _ => token.type = ty ∧ token.text = text

/-!  Grammar rules. -/

/-- Model of `parse_type`.  On a non-keyword token or an unknown keyword the
source throws "Invalid type" with `get_next_token_line` evaluated after the
token was removed. -/
def parse_type (input : List Token) : PResult (DecafType × List Token) :=
  match input with
  | [] => .err .unexpectedEOFExpectingType
  | token :: rest =>
    if token.type = TokenType.KEY then
      if token.text = "int" then .ok (.INT, rest)
      else if token.text = "bool" then .ok (.BOOL, rest)
      else if token.text = "void" then .ok (.VOID, rest)
      else
        PResult.bind (get_next_token_line rest) (fun l =>
          .err (.invalidType token.text l))
    else
      PResult.bind (get_next_token_line rest) (fun l =>
        .err (.invalidType token.text l))

/-- Model of `parse_id`.  Returns the identifier text truncated by
`snprintf` to `MAX_ID_LEN - 1` characters. -/
def parse_id (input : List Token) : PResult (String × List Token) :=
  match input with
  | [] => .err .unexpectedEOFExpectingId
  | token :: rest =>
    if token.type = TokenType.ID then
      .ok (snprintf_id token.text, rest)
    else
      PResult.bind (get_next_token_line rest) (fun l =>
        .err (.invalidId token.text l))

/-- Model of `parse_vardecl`.  The source peeks the line of the first token
without an emptiness check, so the empty queue is undefined behaviour. -/
def parse_vardecl (input : List Token) : PResult (ASTNode × List Token) :=
  match input with
  | [] => .unspec
  | t :: _ => do
    let line := t.line
    let (tokenType, s1) ← parse_type input
    let (name, s2) ← parse_id s1
    let s3 ← match_and_discard_next_token s2 .SYM ";"
    pure (.vardecl name tokenType false 1 line, s3)

/-- Model of `breakout_helper`.  When the front token's text is none of
`continue` / `break` / `return` the source reaches its final
`return NULL;` without consuming anything. -/
def breakout_helper (input : List Token) : PResult (ASTNode × List Token) :=
  match input with
  | [] => .unspec
  | keyword :: rest =>
    let line := keyword.line
    if keyword.text = "continue" then do
      let s ← match_and_discard_next_token rest .SYM ";"
      pure (ASTNode.continueNode line, s)
    else if keyword.text = "break" then do
      let s ← match_and_discard_next_token rest .SYM ";"
      pure (ASTNode.breakNode line, s)
    else if keyword.text = "return" then
      if check_next_token_type rest .SYM then do
        let s ← match_and_discard_next_token rest .SYM ";"
        pure (ASTNode.returnNode .nullNode line, s)
      else if check_next_token_type rest .ID then do
        let (name, s1) ← parse_id rest
        let s2 ← match_and_discard_next_token s1 .SYM ";"
        pure (ASTNode.returnNode (.location name .nullNode line) line, s2)
      else if check_next_token_type rest .DECLIT then
        match rest with
        | [] => .unspec
        | v :: r2 => do
          let s ← match_and_discard_next_token r2 .SYM ";"
          pure (ASTNode.returnNode (.litInt (atoi v.text) line) line, s)
      else if check_next_token_type rest .HEXLIT then
        match rest with
        | [] => .unspec
        | v :: r2 => do
          let s ← match_and_discard_next_token r2 .SYM ";"
          pure (ASTNode.returnNode (.litInt (strtol16 v.text) line) line, s)
      else if check_next_token_type rest .STRLIT then
        match rest with
        | [] => .unspec
        | v :: r2 =>
          if 2 ≤ v.text.length then do
            let stripped := String.mk (v.text.data.drop 1 |>.take (v.text.length - 2))
            let s ← match_and_discard_next_token r2 .SYM ";"
            pure (ASTNode.returnNode (.litString stripped line) line, s)
          else .unspec
      else .err .invalidReturn
    else .ok (ASTNode.nullNode, input)

/-- Model of `parse_assignment`.  The string-literal branch stores the token
text verbatim (no quote stripping happens here, unlike in
`breakout_helper`). -/
def parse_assignment (input : List Token) : PResult (ASTNode × List Token) :=
  match input with
  | [] => .unspec
  | t :: _ => do
    let line := t.line
    let (name, s1) ← parse_id input
    let left := ASTNode.location name .nullNode line
    let s2 ← match_and_discard_next_token s1 .SYM "="
    let value ← (match s2 with
      | [] => PResult.err .invalidAssignment
      | tv :: _ =>
        if tv.type = TokenType.DECLIT then
          PResult.ok (ASTNode.litInt (atoi tv.text) line)
        else if tv.type = TokenType.HEXLIT then
          PResult.ok (ASTNode.litInt (strtol16 tv.text) line)
        else if tv.type = TokenType.STRLIT then
          PResult.ok (ASTNode.litString tv.text line)
        else if tv.type = TokenType.KEY ∧ (tv.text = "true" ∨ tv.text = "false") then
          PResult.ok (ASTNode.litBool (tv.text ≠ "false") line)
        else if tv.type = TokenType.ID then
          PResult.ok (ASTNode.location tv.text .nullNode line)
        else PResult.err .invalidAssignment)
    let s3 ← discard_next_token s2
    let s4 ← match_and_discard_next_token s3 .SYM ";"
    pure (ASTNode.assignment left value line, s4)

/-- Model of `type_helper`.  The if-chain has no final else: a front token
matching none of the four classes lets control fall off the end of the
non-void function, which is undefined behaviour (`unspec`). -/
def type_helper (input : List Token) : PResult (ASTNode × List Token) :=
  match input with
  | [] => .unspec
  | peek :: rest =>
    let line := peek.line
    if peek.type = TokenType.ID then do
      let (name, s1) ← parse_id input
      pure (ASTNode.location name .nullNode line, s1)
    else if peek.type = TokenType.DECLIT then
      .ok (ASTNode.litInt (atoi peek.text) line, rest)
    else if peek.type = TokenType.HEXLIT then
      .ok (ASTNode.litInt (strtol16 peek.text) line, rest)
    else if peek.type = TokenType.KEY ∧ (peek.text = "true" ∨ peek.text = "false") then
      .ok (ASTNode.litBool (peek.text ≠ "false") line, rest)
    else .unspec

/-- Model of `op_type_helper`.  The source only peeks (the operator token is
never removed) and maps both `<` and `<=` to `LEOP`. -/
def op_type_helper (input : List Token) : PResult (BinaryOpType × List Token) :=
  match input with
  | [] => .unspec
  | t :: _ =>
    if t.text = "||" then .ok (.OROP, input)
    else if t.text = "&&" then .ok (.ANDOP, input)
    else if t.text = "==" then .ok (.EQOP, input)
    else if t.text = "!=" then .ok (.NEQOP, input)
    else if t.text = "<" then .ok (.LEOP, input)
    else if t.text = "<=" then .ok (.LEOP, input)
    else if t.text = ">=" then .ok (.GEOP, input)
    else if t.text = ">" then .ok (.GTOP, input)
    else if t.text = "+" then .ok (.ADDOP, input)
    else if t.text = "-" then .ok (.SUBOP, input)
    else if t.text = "*" then .ok (.MULOP, input)
    else if t.text = "/" then .ok (.DIVOP, input)
    else if t.text = "%" then .ok (.MODOP, input)
    else .err .invalidOperator

/-- Model of `parse_expression`.  In the `!` branch the token after `!` is
consumed by `parse_type`; only when that type is BOOL (i.e. the token is the
keyword `bool`) is a node returned, otherwise control falls off the end. -/
def parse_expression (input : List Token) : PResult (ASTNode × List Token) :=
  match input with
  | [] => .unspec
  | t :: rest =>
    let line := t.line
    if t.type = TokenType.SYM ∧ t.text = "!" then do
      let (ty, s1) ← parse_type rest
      match rest with
      | [] => .unspec
      | peek :: _ =>
        if ty = DecafType.BOOL then
          pure (ASTNode.unaryOp .NOTOP (.litBool (peek.text ≠ "false") line) line, s1)
        else .unspec
    else if t.type = TokenType.KEY ∧ (t.text = "true" ∨ t.text = "false") then
      .ok (ASTNode.litBool (t.text ≠ "false") line, rest)
    else do
      let (left, s1) ← type_helper input
      let (op, s2) ← op_type_helper s1
      let (right, s3) ← type_helper s2
      pure (ASTNode.binaryOp op left right line, s3)

/-- Variable-declaration loop of `parse_block`, with fuel bounding the
iteration count (each successful `parse_vardecl` consumes at least one token,
so `input.length + 1` fuel never runs out).  An empty queue at a loop head
dereferences a NULL peek in the source, hence `unspec`. -/
def vars_loop (fuel : Nat) (input : List Token) (acc : List ASTNode) :
    PResult (List ASTNode × List Token) :=
  match fuel with
  | 0 => .unspec
  | fuel + 1 =>
    match input with
    | [] => .unspec
    | next :: _ =>
      if next.text = "int" ∨ next.text = "bool" then do
        let (vd, s1) ← parse_vardecl input
        vars_loop fuel s1 (acc ++ [vd])
      else .ok (acc, input)

/-- Assignment-statement loop of `parse_block`, fuelled like `vars_loop`. -/
def stmts_loop (fuel : Nat) (input : List Token) (acc : List ASTNode) :
    PResult (List ASTNode × List Token) :=
  match fuel with
  | 0 => .unspec
  | fuel + 1 =>
    match input with
    | [] => .unspec
    | next :: _ =>
      if next.type = TokenType.ID then do
        let (a, s1) ← parse_assignment input
        stmts_loop fuel s1 (acc ++ [a])
      else .ok (acc, input)

/-- Model of `parse_block`: `{`, the declaration loop, the assignment loop,
one unconditional `breakout_helper` call whose result (possibly NULL) is
appended to the statement list, then `}`. -/
def parse_block (input : List Token) : PResult (ASTNode × List Token) :=
  match input with
  | [] => .unspec
  | t :: _ => do
    let line := t.line
    let s1 ← match_and_discard_next_token input .SYM "\x7b"
    let (vars, s2) ← vars_loop (s1.length + 1) s1 []
    let (stmts0, s3) ← stmts_loop (s2.length + 1) s2 []
    let (breakOut, s4) ← breakout_helper s3
    let s5 ← match_and_discard_next_token s4 .SYM "\x7d"
    pure (ASTNode.block vars (stmts0 ++ [breakOut]) line, s5)

/-- Model of `parse_conditional`.  Note the source checks for the `else`
keyword with a non-consuming lookahead and then calls `parse_block` without
discarding the `else` token. -/
def parse_conditional (input : List Token) : PResult (ASTNode × List Token) :=
  match input with
  | [] => .unspec
  | t :: _ => do
    let line := t.line
    let s1 ← match_and_discard_next_token input .KEY "if"
    let s2 ← match_and_discard_next_token s1 .SYM "("
    let (expression, s3) ← parse_expression s2
    let s4 ← match_and_discard_next_token s3 .SYM ")"
    let (blk, s5) ← parse_block s4
    if check_next_token s5 .KEY "else" then do
      let (elseBlk, s6) ← parse_block s5
      pure (ASTNode.conditional expression blk elseBlk line, s6)
    else
      pure (ASTNode.conditional expression blk .nullNode line, s5)

/-- Parameter loop of `param_helper`, fuelled like the block loops. -/
def param_loop (fuel : Nat) (input : List Token) (acc : List (String × DecafType)) :
    PResult (List (String × DecafType) × List Token) :=
  match fuel with
  | 0 => .unspec
  | fuel + 1 =>
    match input with
    | [] => .unspec
    | peek :: _ =>
      if peek.text = "int" ∨ peek.text = "bool" then do
        let (ty, s1) ← parse_type input
        let (name, s2) ← parse_id s1
        let acc2 := acc ++ [(name, ty)]
        if check_next_token s2 .SYM "," then do
          let s3 ← match_and_discard_next_token s2 .SYM ","
          param_loop fuel s3 acc2
        else .ok (acc2, s2)
      else .ok (acc, input)

/-- Model of `param_helper`.  The source peeks before the loop even when the
parameter list turns out empty, so an empty queue is undefined behaviour. -/
def param_helper (input : List Token) : PResult (List (String × DecafType) × List Token) :=
  match input with
  | [] => .unspec
  | _ => param_loop (input.length + 1) input []

/-- Model of `parse_function_decl`. -/
def parse_function_decl (input : List Token) : PResult (ASTNode × List Token) :=
  match input with
  | [] => .unspec
  | t :: _ => do
    let line := t.line
    let s1 ← match_and_discard_next_token input .KEY "def"
    let (returnType, s2) ← parse_type s1
    let (name, s3) ← parse_id s2
    let s4 ← match_and_discard_next_token s3 .SYM "("
    let (parameters, s5) ← param_helper s4
    let s6 ← match_and_discard_next_token s5 .SYM ")"
    let (blk, s7) ← parse_block s6
    pure (ASTNode.funcdecl name returnType parameters blk line, s7)

/-- Top-level loop of `parse_program`: while the queue is non-empty, a
leading `def` keyword routes to function parsing and anything else to
top-level variable declaration parsing.  An empty queue terminates the loop
and yields the Program node. -/
def program_loop (fuel : Nat) (input : List Token) (vars funcs : List ASTNode) :
    PResult (ASTNode × List Token) :=
  match fuel with
  | 0 => .unspec
  | fuel + 1 =>
    match input with
    | [] => .ok (ASTNode.program vars funcs, [])
    | _ :: _ =>
      if check_next_token input .KEY "def" then do
        let (f, s1) ← parse_function_decl input
        program_loop fuel s1 vars (funcs ++ [f])
      else do
        let (v, s1) ← parse_vardecl input
        program_loop fuel s1 (vars ++ [v]) funcs

/-- Model of `parse_program`. -/
def parse_program (input : List Token) : PResult (ASTNode × List Token) :=
  program_loop (input.length + 1) input [] []

/-- Model of `parse`, the entry point. -/
def parse (input : List Token) : PResult (ASTNode × List Token) :=
  parse_program input

/-!  Predicates used to state the claims. -/

/-- Nodes that `breakout_helper` can return: the three terminal statements
or the NULL fall-through. -/
def isBreakoutNode : ASTNode → Bool
  | .breakNode _ => true
  | .continueNode _ => true
  | .returnNode _ _ => true
  | .nullNode => true
  | _ => false

/-- Assignment-node test. -/
def isAssignmentNode : ASTNode → Bool
  | .assignment _ _ _ => true
  | _ => false

/-- A Block whose statement list ends in exactly one breakout-produced node,
every earlier statement being an Assignment. -/
def blockEndsWithBreakout : ASTNode → Bool
  | .block _ stmts _ =>
    (match stmts.getLast? with
     | some n => isBreakoutNode n
     | none => false)
    && stmts.dropLast.all isAssignmentNode
  | _ => false

/-!  Basic lemmas about the result monad and helpers. -/

theorem PResult.ok_bind {α β : Type} (a : α) (f : α → PResult β) :
    (PResult.ok a >>= f) = f a := rfl

theorem PResult.err_bind {α β : Type} (e : Err) (f : α → PResult β) :
    ((PResult.err e : PResult α) >>= f) = PResult.err e := rfl

theorem PResult.unspec_bind {α β : Type} (f : α → PResult β) :
    ((PResult.unspec : PResult α) >>= f) = PResult.unspec := rfl

theorem PResult.pure_eq_ok {α : Type} (a : α) : (pure a : PResult α) = PResult.ok a := rfl

theorem snprintf_id_eq_self (s : String) (h : s.data.length ≤ 255) : snprintf_id s = s := by
  cases s with
  | mk data => exact congrArg String.mk (List.take_of_length_le (by simpa using h))

theorem PResult.bind_eq_ok {α β : Type} {x : PResult α} {f : α → PResult β} {b : β}
    (h : (x >>= f) = .ok b) : ∃ a, x = .ok a ∧ f a = .ok b := by
  cases x with
  | ok a => exact ⟨a, rfl, h⟩
  | err e => exact PResult.noConfusion h
  | unspec => exact PResult.noConfusion h

/-- Whatever `breakout_helper` successfully returns is a Break, Continue or
Return node — or the NULL fall-through value. -/
theorem breakout_helper_shape (input : List Token) (n : ASTNode) (s : List Token)
    (h : breakout_helper input = .ok (n, s)) : isBreakoutNode n = true := by
  cases input with
  | nil => exact PResult.noConfusion h
  | cons keyword rest =>
    simp only [breakout_helper] at h
    split at h
    · -- continue
      obtain ⟨s1, _, h⟩ := PResult.bind_eq_ok h
      rw [PResult.pure_eq_ok] at h
      injection h with h'
      injection h' with hn hs
      subst hn
      rfl
    · split at h
      · -- break
        obtain ⟨s1, _, h⟩ := PResult.bind_eq_ok h
        rw [PResult.pure_eq_ok] at h
        injection h with h'
        injection h' with hn hs
        subst hn
        rfl
      · split at h
        · -- return
          split at h
          · -- bare return (next token a symbol)
            obtain ⟨s1, _, h⟩ := PResult.bind_eq_ok h
            rw [PResult.pure_eq_ok] at h
            injection h with h'
            injection h' with hn hs
            subst hn
            rfl
          · split at h
            · -- return identifier
              obtain ⟨⟨name, s1⟩, _, h⟩ := PResult.bind_eq_ok h
              obtain ⟨s2, _, h⟩ := PResult.bind_eq_ok h
              rw [PResult.pure_eq_ok] at h
              injection h with h'
              injection h' with hn hs
              subst hn
              rfl
            · split at h
              · -- return decimal literal
                split at h
                · exact PResult.noConfusion h
                · obtain ⟨s1, _, h⟩ := PResult.bind_eq_ok h
                  rw [PResult.pure_eq_ok] at h
                  injection h with h'
                  injection h' with hn hs
                  subst hn
                  rfl
              · split at h
                · -- return hex literal
                  split at h
                  · exact PResult.noConfusion h
                  · obtain ⟨s1, _, h⟩ := PResult.bind_eq_ok h
                    rw [PResult.pure_eq_ok] at h
                    injection h with h'
                    injection h' with hn hs
                    subst hn
                    rfl
                · split at h
                  · -- return string literal
                    split at h
                    · exact PResult.noConfusion h
                    · split at h
                      · obtain ⟨s1, _, h⟩ := PResult.bind_eq_ok h
                        rw [PResult.pure_eq_ok] at h
                        injection h with h'
                        injection h' with hn hs
                        subst hn
                        rfl
                      · exact PResult.noConfusion h
                  · -- invalid return
                    exact PResult.noConfusion h
        · -- NULL fall-through
          injection h with h'
          injection h' with hn hs
          subst hn
          rfl

/-- Whatever `parse_assignment` successfully returns is an Assignment node. -/
theorem parse_assignment_shape (input : List Token) (n : ASTNode) (s : List Token)
    (h : parse_assignment input = .ok (n, s)) : isAssignmentNode n = true := by
  cases input with
  | nil => exact PResult.noConfusion h
  | cons t tl =>
    simp only [parse_assignment] at h
    obtain ⟨⟨name, s1⟩, _, h⟩ := PResult.bind_eq_ok h
    obtain ⟨s2, _, h⟩ := PResult.bind_eq_ok h
    obtain ⟨value, _, h⟩ := PResult.bind_eq_ok h
    obtain ⟨s3, _, h⟩ := PResult.bind_eq_ok h
    obtain ⟨s4, _, h⟩ := PResult.bind_eq_ok h
    rw [PResult.pure_eq_ok] at h
    injection h with h'
    injection h' with hn hs
    subst hn
    rfl

/-- Every node accumulated by the assignment loop of `parse_block` is an
Assignment node. -/
theorem stmts_loop_all (fuel : Nat) (input : List Token) (acc l : List ASTNode)
    (s : List Token) (hacc : acc.all isAssignmentNode = true)
    (h : stmts_loop fuel input acc = .ok (l, s)) : l.all isAssignmentNode = true := by
  induction fuel generalizing input acc with
  | zero => exact PResult.noConfusion h
  | succ fuel ih =>
    cases input with
    | nil => exact PResult.noConfusion h
    | cons next tl =>
      simp only [stmts_loop] at h
      split at h
      · obtain ⟨⟨a, s1⟩, h1, h⟩ := PResult.bind_eq_ok h
        refine ih s1 (acc ++ [a]) ?_ h
        have hsh := parse_assignment_shape (next :: tl) a s1 h1
        simp [List.all_append, hacc, hsh]
      · injection h with h'
        injection h' with hl hs
        subst hl
        exact hacc

/-!  C1 -/

/-- C1: the claim says `parse_conditional` consumes a well-formed
`if (expr) block else block` construct entirely, else keyword included, and
returns a Conditional whose else-branch is the second block.  The source
checks for the `else` keyword but never discards it, so the second
`parse_block` call finds `else` where it expects `{` and the whole
conditional fails with an UnexpectedToken diagnostic; on the token stream of
`if ( true ) \x7b break ; \x7d else \x7b break ; \x7d` the parse fails. -/
theorem C1_conditional_else_fails :
    parse_conditional [⟨.KEY, "if", 1⟩, ⟨.SYM, "(", 1⟩, ⟨.KEY, "true", 1⟩, ⟨.SYM, ")", 1⟩,
      ⟨.SYM, "\x7b", 1⟩, ⟨.KEY, "break", 1⟩, ⟨.SYM, ";", 1⟩, ⟨.SYM, "\x7d", 1⟩,
      ⟨.KEY, "else", 1⟩, ⟨.SYM, "\x7b", 1⟩, ⟨.KEY, "break", 1⟩, ⟨.SYM, ";", 1⟩, ⟨.SYM, "\x7d", 1⟩]
      = .err (.unexpectedToken "\x7b" "else" 1) := rfl

/-!  C2 -/

/-- C2 counterexample: on the empty token stream `parse` does not fail with
UnexpectedEndOfInput; it succeeds and returns an empty Program node. -/
theorem C2_empty_stream_returns_program :
    parse ([] : List Token) = .ok (.program [] [], []) := rfl

/-- C2 as amended: for the empty token stream `parse` succeeds with an empty
Program node (the empty queue is the loop's terminating condition, not a
failure), and for a stream holding exactly one well-formed top-level
variable declaration `parse` succeeds with a Program holding that single
declaration and no functions. -/
theorem C2_empty_and_single_decl (tyText name : String) (l1 l2 l3 : Nat)
    (hty : tyText = "int" ∨ tyText = "bool" ∨ tyText = "void")
    (hname : name.data.length ≤ 255) :
    parse ([] : List Token) = .ok (.program [] [], []) ∧
    parse [⟨.KEY, tyText, l1⟩, ⟨.ID, name, l2⟩, ⟨.SYM, ";", l3⟩]
      = .ok (.program [.vardecl name
          (if tyText = "int" then DecafType.INT
           else if tyText = "bool" then DecafType.BOOL else DecafType.VOID)
          false 1 l1] [], []) := by
  refine ⟨rfl, ?_⟩
  have hsn := snprintf_id_eq_self name hname
  rcases hty with rfl | rfl | rfl
  · have e : parse [⟨.KEY, "int", l1⟩, ⟨.ID, name, l2⟩, ⟨.SYM, ";", l3⟩]
        = .ok (.program [.vardecl (snprintf_id name) .INT false 1 l1] [], []) := rfl
    rw [e, hsn]; rfl
  · have e : parse [⟨.KEY, "bool", l1⟩, ⟨.ID, name, l2⟩, ⟨.SYM, ";", l3⟩]
        = .ok (.program [.vardecl (snprintf_id name) .BOOL false 1 l1] [], []) := rfl
    rw [e, hsn]; rfl
  · have e : parse [⟨.KEY, "void", l1⟩, ⟨.ID, name, l2⟩, ⟨.SYM, ";", l3⟩]
        = .ok (.program [.vardecl (snprintf_id name) .VOID false 1 l1] [], []) := rfl
    rw [e, hsn]; rfl

/-- C2 witness: the amended theorem applied to the declaration `int x ;`. -/
theorem C2_witness :
    parse ([] : List Token) = .ok (.program [] [], []) ∧
    parse [⟨.KEY, "int", 1⟩, ⟨.ID, "x", 1⟩, ⟨.SYM, ";", 1⟩]
      = .ok (.program [.vardecl "x" .INT false 1 1] [], []) :=
  C2_empty_and_single_decl "int" "x" 1 1 1 (Or.inl rfl) (by decide)

/-!  C5 -/

/-- C5 counterexample: on the token stream of `int x` (missing semicolon,
all tokens on line 1) the stream is exhausted before the semicolon check, so
`parse` fails with the end-of-input error carrying the expected text, not
with an UnexpectedToken diagnostic naming line 1. -/
theorem C5_missing_semicolon_is_eof :
    parse [⟨.KEY, "int", 1⟩, ⟨.ID, "x", 1⟩] = .err (.unexpectedEOFExpecting ";") := rfl

/-- C5 as amended: `parse` of the token stream of `int x` fails with
UnexpectedEndOfInput naming the expected text `;` (the branch of
`match_and_discard_next_token` taken on an empty queue), consistent with the
cursor protocol's own description. -/
theorem C5_missing_semicolon_amended :
    parse [⟨.KEY, "int", 1⟩, ⟨.ID, "x", 1⟩] = .err (.unexpectedEOFExpecting ";") ∧
    match_and_discard_next_token [] .SYM ";" = .err (.unexpectedEOFExpecting ";") :=
  ⟨rfl, rfl⟩

/-!  C6 -/

/-- C6 counterexample: expecting `;` on the stream `x` (line 1), `y` (line
2), the failing token is on line 1 yet the diagnostic names line 2 — the
line of the token after the one that failed to match. -/
theorem C6_reported_line_is_not_failing_line :
    match_and_discard_next_token [⟨.SYM, "x", 1⟩, ⟨.SYM, "y", 2⟩] .SYM ";"
      = .err (.unexpectedToken ";" "x" 2) ∧
    Err.unexpectedToken ";" "x" 2 ≠ Err.unexpectedToken ";" "x" 1 :=
  ⟨rfl, by decide⟩

/-- C6 as amended: when `match_and_discard_next_token` raises UnexpectedToken
on a non-empty stream, the diagnostic line is the source line of the token
following the failing one (the failing token is removed before the line is
looked up); when no token follows, the failure degrades to a plain
UnexpectedEndOfInput instead. -/
theorem C6_line_of_following_token (t next : Token) (rest : List Token)
    (ty : TokenType) (text : String) (h : ¬(t.type = ty ∧ t.text = text)) :
    match_and_discard_next_token (t :: next :: rest) ty text
      = .err (.unexpectedToken text t.text next.line) ∧
    match_and_discard_next_token [t] ty text = .err .unexpectedEOF := by
  constructor
  · rw [match_and_discard_next_token, if_neg h]; rfl
  · rw [match_and_discard_next_token, if_neg h]; rfl

/-- C6 witness: the amended theorem applied to the stream `x` (line 1),
`y` (line 2) with expected symbol `;`. -/
theorem C6_witness :
    match_and_discard_next_token [⟨.SYM, "a", 1⟩, ⟨.SYM, "b", 5⟩] .SYM ";"
      = .err (.unexpectedToken ";" "a" 5) ∧
    match_and_discard_next_token [⟨.SYM, "a", 1⟩] .SYM ";" = .err .unexpectedEOF :=
  C6_line_of_following_token ⟨.SYM, "a", 1⟩ ⟨.SYM, "b", 5⟩ [] .SYM ";" (by decide)

/-!  C7 -/

/-- C7: `op_type_helper` maps every operator symbol text to its tag, the
source texts `<` and `<=` both map to `LEOP`, and every other token text
raises InvalidOperator.  The token is only peeked, so the stream is returned
unchanged. -/
theorem C7_op_type_helper_table (t : Token) (rest : List Token) :
    (t.text = "||" → op_type_helper (t :: rest) = .ok (.OROP, t :: rest)) ∧
    (t.text = "&&" → op_type_helper (t :: rest) = .ok (.ANDOP, t :: rest)) ∧
    (t.text = "==" → op_type_helper (t :: rest) = .ok (.EQOP, t :: rest)) ∧
    (t.text = "!=" → op_type_helper (t :: rest) = .ok (.NEQOP, t :: rest)) ∧
    (t.text = "<" → op_type_helper (t :: rest) = .ok (.LEOP, t :: rest)) ∧
    (t.text = "<=" → op_type_helper (t :: rest) = .ok (.LEOP, t :: rest)) ∧
    (t.text = ">=" → op_type_helper (t :: rest) = .ok (.GEOP, t :: rest)) ∧
    (t.text = ">" → op_type_helper (t :: rest) = .ok (.GTOP, t :: rest)) ∧
    (t.text = "+" → op_type_helper (t :: rest) = .ok (.ADDOP, t :: rest)) ∧
    (t.text = "-" → op_type_helper (t :: rest) = .ok (.SUBOP, t :: rest)) ∧
    (t.text = "*" → op_type_helper (t :: rest) = .ok (.MULOP, t :: rest)) ∧
    (t.text = "/" → op_type_helper (t :: rest) = .ok (.DIVOP, t :: rest)) ∧
    (t.text = "%" → op_type_helper (t :: rest) = .ok (.MODOP, t :: rest)) ∧
    (t.text ∉ (["||", "&&", "==", "!=", "<", "<=", ">=", ">", "+", "-", "*", "/", "%"] :
        List String) →
      op_type_helper (t :: rest) = .err .invalidOperator) := by
  refine ⟨?_, ?_, ?_, ?_, ?_, ?_, ?_, ?_, ?_, ?_, ?_, ?_, ?_, ?_⟩ <;> intro h
  case _ => rw [op_type_helper, h]; rfl
  case _ => rw [op_type_helper, h]; rfl
  case _ => rw [op_type_helper, h]; rfl
  case _ => rw [op_type_helper, h]; rfl
  case _ => rw [op_type_helper, h]; rfl
  case _ => rw [op_type_helper, h]; rfl
  case _ => rw [op_type_helper, h]; rfl
  case _ => rw [op_type_helper, h]; rfl
  case _ => rw [op_type_helper, h]; rfl
  case _ => rw [op_type_helper, h]; rfl
  case _ => rw [op_type_helper, h]; rfl
  case _ => rw [op_type_helper, h]; rfl
  case _ => rw [op_type_helper, h]; rfl
  case _ =>
    simp only [List.mem_cons, List.not_mem_nil, or_false, not_or] at h
    obtain ⟨h1, h2, h3, h4, h5, h6, h7, h8, h9, h10, h11, h12, h13⟩ := h
    rw [op_type_helper, if_neg h1, if_neg h2, if_neg h3, if_neg h4, if_neg h5, if_neg h6,
      if_neg h7, if_neg h8, if_neg h9, if_neg h10, if_neg h11, if_neg h12, if_neg h13]

/-- C7 witness: the table applied to the tokens `<`, `<=` and `&`. -/
theorem C7_witness :
    op_type_helper [⟨.SYM, "<", 1⟩] = .ok (.LEOP, [⟨.SYM, "<", 1⟩]) ∧
    op_type_helper [⟨.SYM, "<=", 1⟩] = .ok (.LEOP, [⟨.SYM, "<=", 1⟩]) ∧
    op_type_helper [⟨.SYM, "&", 1⟩] = .err .invalidOperator :=
  ⟨(C7_op_type_helper_table ⟨.SYM, "<", 1⟩ []).2.2.2.2.1 rfl,
   (C7_op_type_helper_table ⟨.SYM, "<=", 1⟩ []).2.2.2.2.2.1 rfl,
   (C7_op_type_helper_table ⟨.SYM, "&", 1⟩
       []).2.2.2.2.2.2.2.2.2.2.2.2.2 (by decide)⟩

/-!  C8 -/

/-- C8 counterexample: on the stream `!` `false` `;` — which begins with the
symbol `!` followed by a boolean keyword token — `parse_expression` does not
succeed with a UnaryOp(Not) node; the token after `!` is handed to
`parse_type`, which rejects the keyword `false` as an invalid type. -/
theorem C8_bang_false_fails :
    parse_expression [⟨.SYM, "!", 1⟩, ⟨.KEY, "false", 1⟩, ⟨.SYM, ";", 1⟩]
      = .err (.invalidType "false" 1) := rfl

/-- C8 as amended: for every stream beginning with the symbol `!` followed
by a boolean keyword token (`true` or `false`) and at least one further
token, `parse_expression` fails with InvalidType naming the keyword's text
(the diagnostic line being that of the token after the keyword); the only
`!` form that yields a UnaryOp(Not) node is `!` followed by the type keyword
`bool`, whose operand is the boolean literal true. -/
theorem C8_bang_bool_keyword (b : String) (l l2 : Nat) (n : Token) (rest : List Token)
    (hb : b = "true" ∨ b = "false") :
    parse_expression (⟨.SYM, "!", l⟩ :: ⟨.KEY, b, l2⟩ :: n :: rest)
      = .err (.invalidType b n.line) ∧
    parse_expression (⟨.SYM, "!", l⟩ :: ⟨.KEY, "bool", l2⟩ :: rest)
      = .ok (.unaryOp .NOTOP (.litBool true l) l, rest) := by
  constructor
  · rcases hb with rfl | rfl <;> rfl
  · rfl

/-- C8 witness: the amended theorem applied to the stream `!` `true` `)`. -/
theorem C8_witness :
    parse_expression [⟨.SYM, "!", 1⟩, ⟨.KEY, "true", 1⟩, ⟨.SYM, ")", 1⟩]
      = .err (.invalidType "true" 1) ∧
    parse_expression [⟨.SYM, "!", 1⟩, ⟨.KEY, "bool", 1⟩]
      = .ok (.unaryOp .NOTOP (.litBool true 1) 1, []) :=
  C8_bang_bool_keyword "true" 1 1 ⟨.SYM, ")", 1⟩ [] (Or.inl rfl)

/-!  C10 -/

/-- C10 counterexample: on the stream whose front token is the symbol `(` —
in none of the four recognized classes — `type_helper` neither returns a
node nor raises a parse failure: control falls off the end of the non-void
function, an unspecified value. -/
theorem C10_fallthrough_on_symbol :
    type_helper [⟨.SYM, "(", 1⟩] = .unspec := rfl

/-- C10 as amended: `type_helper` returns a node for each of the four
recognized token classes (identifier, decimal literal, hex literal, boolean
keyword), but for every other front token it falls through the if-chain with
no explicit failure branch, producing an unspecified value rather than a
parse failure. -/
theorem C10_type_helper_cases (t : Token) (rest : List Token) :
    (t.type = .ID → type_helper (t :: rest)
      = .ok (.location (snprintf_id t.text) .nullNode t.line, rest)) ∧
    (t.type = .DECLIT → type_helper (t :: rest) = .ok (.litInt (atoi t.text) t.line, rest)) ∧
    (t.type = .HEXLIT → type_helper (t :: rest) = .ok (.litInt (strtol16 t.text) t.line, rest)) ∧
    (t.type = .KEY → (t.text = "true" ∨ t.text = "false") →
      type_helper (t :: rest) = .ok (.litBool (t.text ≠ "false") t.line, rest)) ∧
    (t.type ≠ .ID → t.type ≠ .DECLIT → t.type ≠ .HEXLIT →
      ¬(t.type = .KEY ∧ (t.text = "true" ∨ t.text = "false")) →
      type_helper (t :: rest) = .unspec) := by
  refine ⟨?_, ?_, ?_, ?_, ?_⟩
  · intro h
    rw [type_helper, if_pos h, parse_id, if_pos h]
    rfl
  · intro h
    have h1 : t.type ≠ TokenType.ID := by rw [h]; decide
    rw [type_helper, if_neg h1, if_pos h]
  · intro h
    have h1 : t.type ≠ TokenType.ID := by rw [h]; decide
    have h2 : t.type ≠ TokenType.DECLIT := by rw [h]; decide
    rw [type_helper, if_neg h1, if_neg h2, if_pos h]
  · intro h hb
    have h1 : t.type ≠ TokenType.ID := by rw [h]; decide
    have h2 : t.type ≠ TokenType.DECLIT := by rw [h]; decide
    have h3 : t.type ≠ TokenType.HEXLIT := by rw [h]; decide
    rw [type_helper, if_neg h1, if_neg h2, if_neg h3, if_pos ⟨h, hb⟩]
  · intro h1 h2 h3 h4
    rw [type_helper, if_neg h1, if_neg h2, if_neg h3, if_neg h4]

/-- C10 witness: the case analysis applied to a decimal literal token and to
a symbol token. -/
theorem C10_witness :
    type_helper [⟨.DECLIT, "7", 2⟩] = .ok (.litInt (atoi "7") 2, []) ∧
    type_helper [⟨.SYM, "+", 3⟩] = .unspec :=
  ⟨(C10_type_helper_cases ⟨.DECLIT, "7", 2⟩ []).2.1 rfl,
   (C10_type_helper_cases ⟨.SYM, "+", 3⟩ []).2.2.2.2 (by decide) (by decide) (by decide)
     (by decide)⟩

/-!  C3 -/

/-- C3 counterexample: `parse_block` on the token stream of an empty block
`\x7b \x7d` succeeds, yet its statement list ends in the NULL node
`breakout_helper` fell through with — not a Break, Continue or Return node —
and no parse failure is raised for the missing terminal statement. -/
theorem C3_empty_block_gets_null_terminal :
    parse_block [⟨.SYM, "\x7b", 1⟩, ⟨.SYM, "\x7d", 1⟩]
      = .ok (.block [] [.nullNode] 1, []) := rfl

/-- C3 as amended: for every token stream on which `parse_block` succeeds,
the returned Block's statement list ends with exactly one node produced by
the terminal-statement helper — a Break, Continue or Return node, or the
NULL value the helper returns when the next tokens do not begin with
`continue`, `break` or `return` (no parse failure is raised in that case) —
and every statement before it is an Assignment. -/
theorem C3_block_ends_with_breakout (input : List Token) (node : ASTNode)
    (rest : List Token) (h : parse_block input = .ok (node, rest)) :
    blockEndsWithBreakout node = true := by
  cases input with
  | nil => exact PResult.noConfusion h
  | cons t tl =>
    simp only [parse_block] at h
    obtain ⟨s1, h1, h⟩ := PResult.bind_eq_ok h
    obtain ⟨⟨vars, s2⟩, h2, h⟩ := PResult.bind_eq_ok h
    obtain ⟨⟨stmts0, s3⟩, h3, h⟩ := PResult.bind_eq_ok h
    obtain ⟨⟨breakOut, s4⟩, h4, h⟩ := PResult.bind_eq_ok h
    obtain ⟨s5, h5, h⟩ := PResult.bind_eq_ok h
    rw [PResult.pure_eq_ok] at h
    injection h with h'
    injection h' with hn hs
    subst hn
    have hb := breakout_helper_shape s3 breakOut s4 h4
    have ha := stmts_loop_all (s2.length + 1) s2 [] stmts0 s3 rfl h3
    rw [blockEndsWithBreakout, List.getLast?_concat, List.dropLast_concat]
    simp [hb, ha]

/-- C3 witness: the amended theorem applied to the block
`\x7b break ; \x7d`. -/
theorem C3_witness :
    blockEndsWithBreakout (.block [] [.breakNode 1] 1) = true :=
  C3_block_ends_with_breakout
    [⟨.SYM, "\x7b", 1⟩, ⟨.KEY, "break", 1⟩, ⟨.SYM, ";", 1⟩, ⟨.SYM, "\x7d", 1⟩]
    (.block [] [.breakNode 1] 1) [] rfl

/-!  C9 -/

/-- C9: `parse` of the token stream of
`def int f ( ) \x7b int x ; x = 5 ; return x ; \x7d` succeeds with a
Program holding one function whose Block carries exactly one VarDecl(x) in
its declarations list and exactly two statements — an Assignment followed by
a Return — in that order. -/
theorem C9_function_block_shape :
    parse [⟨.KEY, "def", 1⟩, ⟨.KEY, "int", 1⟩, ⟨.ID, "f", 1⟩, ⟨.SYM, "(", 1⟩,
      ⟨.SYM, ")", 1⟩, ⟨.SYM, "\x7b", 1⟩, ⟨.KEY, "int", 1⟩, ⟨.ID, "x", 1⟩, ⟨.SYM, ";", 1⟩,
      ⟨.ID, "x", 1⟩, ⟨.SYM, "=", 1⟩, ⟨.DECLIT, "5", 1⟩, ⟨.SYM, ";", 1⟩,
      ⟨.KEY, "return", 1⟩, ⟨.ID, "x", 1⟩, ⟨.SYM, ";", 1⟩, ⟨.SYM, "\x7d", 1⟩]
      = .ok (.program []
          [.funcdecl "f" .INT []
            (.block [.vardecl "x" .INT false 1 1]
              [.assignment (.location "x" .nullNode 1) (.litInt 5 1) 1,
               .returnNode (.location "x" .nullNode 1) 1] 1) 1], []) := rfl

/-!  C4 -/

/-- C4 counterexample: assigning the string literal token `"hi"` (whose text
includes the quote characters) produces a Literal holding the token text
verbatim — the quotes are not removed, contradicting the claim that the
Literal equals the text with quotes stripped. -/
theorem C4_string_assignment_keeps_quotes :
    parse_assignment [⟨.ID, "x", 1⟩, ⟨.SYM, "=", 1⟩, ⟨.STRLIT, "\"hi\"", 1⟩, ⟨.SYM, ";", 1⟩]
      = .ok (.assignment (.location "x" .nullNode 1) (.litString "\"hi\"" 1) 1, []) ∧
    ("\"hi\"" : String) ≠ "hi" :=
  ⟨rfl, by decide⟩

/-- C4 as amended: for `identifier = value ;` with a string-literal value,
`parse_assignment` succeeds and the right-hand Literal string equals the
token's text verbatim, quote characters included (no stripping happens in
`parse_assignment`); hex-literal values are interpreted base-16; and any
lookahead value token outside the five accepted classes fails with
InvalidAssignmentValue. -/
theorem C4_assignment_values (name s : String) (v : Token) (l1 l2 l3 l4 : Nat)
    (rest : List Token) (hname : name.data.length ≤ 255) :
    parse_assignment (⟨.ID, name, l1⟩ :: ⟨.SYM, "=", l2⟩ :: ⟨.STRLIT, s, l3⟩ ::
        ⟨.SYM, ";", l4⟩ :: rest)
      = .ok (.assignment (.location name .nullNode l1) (.litString s l1) l1, rest) ∧
    parse_assignment (⟨.ID, name, l1⟩ :: ⟨.SYM, "=", l2⟩ :: ⟨.HEXLIT, s, l3⟩ ::
        ⟨.SYM, ";", l4⟩ :: rest)
      = .ok (.assignment (.location name .nullNode l1) (.litInt (strtol16 s) l1) l1, rest) ∧
    (v.type ≠ .DECLIT → v.type ≠ .HEXLIT → v.type ≠ .STRLIT → v.type ≠ .ID →
      ¬(v.type = .KEY ∧ (v.text = "true" ∨ v.text = "false")) →
      parse_assignment (⟨.ID, name, l1⟩ :: ⟨.SYM, "=", l2⟩ :: v :: rest)
        = .err .invalidAssignment) := by
  have hsn := snprintf_id_eq_self name hname
  refine ⟨?_, ?_, ?_⟩
  · have e : parse_assignment (⟨.ID, name, l1⟩ :: ⟨.SYM, "=", l2⟩ :: ⟨.STRLIT, s, l3⟩ ::
        ⟨.SYM, ";", l4⟩ :: rest)
        = .ok (.assignment (.location (snprintf_id name) .nullNode l1) (.litString s l1) l1,
            rest) := rfl
    rw [e, hsn]
  · have e : parse_assignment (⟨.ID, name, l1⟩ :: ⟨.SYM, "=", l2⟩ :: ⟨.HEXLIT, s, l3⟩ ::
        ⟨.SYM, ";", l4⟩ :: rest)
        = .ok (.assignment (.location (snprintf_id name) .nullNode l1)
            (.litInt (strtol16 s) l1) l1, rest) := rfl
    rw [e, hsn]
  · intro h1 h2 h3 h4 h5
    have e : parse_assignment (⟨.ID, name, l1⟩ :: ⟨.SYM, "=", l2⟩ :: v :: rest)
        = PResult.bind
            (if v.type = TokenType.DECLIT then
              PResult.ok (ASTNode.litInt (atoi v.text) l1)
            else if v.type = TokenType.HEXLIT then
              PResult.ok (ASTNode.litInt (strtol16 v.text) l1)
            else if v.type = TokenType.STRLIT then
              PResult.ok (ASTNode.litString v.text l1)
            else if v.type = TokenType.KEY ∧ (v.text = "true" ∨ v.text = "false") then
              PResult.ok (ASTNode.litBool (v.text ≠ "false") l1)
            else if v.type = TokenType.ID then
              PResult.ok (ASTNode.location v.text .nullNode l1)
            else PResult.err .invalidAssignment)
            (fun value =>
              PResult.bind (discard_next_token (v :: rest)) (fun s3 =>
                PResult.bind (match_and_discard_next_token s3 .SYM ";") (fun s4 =>
                  pure (ASTNode.assignment (.location (snprintf_id name) .nullNode l1)
                    value l1, s4)))) := rfl
    rw [e, if_neg h1, if_neg h2, if_neg h3, if_neg h5, if_neg h4]
    rfl

/-- C4 witness: the amended theorem applied to the assignment
`x = "hi" ;`, to `y = 0x1A ;`, and to a symbol value token. -/
theorem C4_witness :
    parse_assignment [⟨.ID, "y", 1⟩, ⟨.SYM, "=", 1⟩, ⟨.STRLIT, "\"a b\"", 1⟩, ⟨.SYM, ";", 1⟩]
      = .ok (.assignment (.location "y" .nullNode 1) (.litString "\"a b\"" 1) 1, []) ∧
    parse_assignment [⟨.ID, "y", 1⟩, ⟨.SYM, "=", 1⟩, ⟨.HEXLIT, "0x1A", 1⟩, ⟨.SYM, ";", 1⟩]
      = .ok (.assignment (.location "y" .nullNode 1) (.litInt (strtol16 "0x1A") 1) 1, []) ∧
    parse_assignment [⟨.ID, "y", 1⟩, ⟨.SYM, "=", 1⟩, ⟨.SYM, "(", 1⟩]
      = .err .invalidAssignment := by
  obtain ⟨h1, h2, h3⟩ := C4_assignment_values "y" "\"a b\"" ⟨.SYM, "(", 1⟩ 1 1 1 1 []
    (by decide)
  refine ⟨h1, ?_, h3 (by decide) (by decide) (by decide) (by decide) (by decide)⟩
  exact (C4_assignment_values "y" "0x1A" ⟨.SYM, "(", 1⟩ 1 1 1 1 [] (by decide)).2.1

end P2
